import Mathlib

/-
Verification of the job submission and status-inference protocol of an
Azure-Functions orchestration shim (function_app.py).

The external world visible to the program is modelled as one state:
  * `containerGroups`: the Sandbox Runner's map from container-group name to
    the current state reported for the group's single container
    (`client.container_groups.get(rg, name).containers[0].instance_view.current_state`);
    an absent key models the `ResourceNotFoundError` raised by `get`.
  * `data_in` / `data_out`: the two directories of the "comments" file share,
    each a map from file name (with its ".json" suffix) to file contents.

File contents are byte lists.  Handlers return
`Option HttpResponse × World × List Effect`: `none` models an uncaught Python
exception (an `AssertionError` from validation, or a storage error such as
downloading an absent file), the `World` is the state after the handler's
synchronous storage operations, and the `Effect` trace records, in issue
order, the mutating requests the handler sent to its collaborators.
`container_groups.begin_delete` is asynchronous and fire-and-forget in the
source (its completion is never awaited), so it appears in the trace but does
not change the returned `World`; `sandbox_delete_completes` applies the
eventual effect of that request.
-/

namespace PxApi

/-- File contents as raw bytes. -/
abbrev Bytes := List Nat

/-- Look up the value stored at key `k` in an association list. -/
def lookupKey {α : Type} : List (String × α) → String → Option α
  | [], _ => none
  | (k', v) :: t, k => if k' = k then some v else lookupKey t k

/-- Store `v` at key `k`: overwrite the first binding of `k`, or append a new
binding when `k` is absent (the overwrite behaviour of `upload_file` on an
existing share file). -/
def upsert {α : Type} : List (String × α) → String → α → List (String × α)
  | [], k, v => [(k, v)]
  | (k', v') :: t, k, v => if k' = k then (k, v) :: t else (k', v') :: upsert t k v

/-- Remove the first binding of key `k` (the effect of deleting a share file
or a container group). -/
def eraseKey {α : Type} : List (String × α) → String → List (String × α)
  | [], _ => []
  | (k', v') :: t, k => if k' = k then t else (k', v') :: eraseKey t k

/-- The `current_state` of a container instance as reported by the Sandbox
Runner: an execution state string (such as "Waiting", "Running",
"Terminated") and, for terminated containers, a detail outcome string. -/
structure CurrentState where
  state : String
  detail_status : String
deriving DecidableEq, Repr

/-- One observed snapshot of the external state shared through the
collaborators. -/
structure World where
  containerGroups : List (String × CurrentState)
  data_in : List (String × Bytes)
  data_out : List (String × Bytes)
deriving DecidableEq, Repr

/-- A mutating request issued to a collaborator, recorded in issue order. -/
inductive Effect where
  | storeUpload (path : String) (contents : Bytes)
  | sandboxCreate (group : String)
  | sandboxBeginDelete (group : String)
  | storeDownload (path : String)
  | storeDelete (path : String)
deriving DecidableEq, Repr

/-- An HTTP response: the body is either a string (messages and poll URLs)
or raw bytes (the collected results file). -/
structure HttpResponse where
  body : String ⊕ Bytes
  status_code : Nat
deriving DecidableEq, Repr

/-- A record of a submitted batch, abstracted to its key set: the source
validates only `set(i.keys())` and never reads the values. -/
structure Record where
  keys : List String
deriving DecidableEq, Repr

/-- An HTTP request: `url` is `req.url`, `body` is `req.get_body()`, and
`json` is the batch `req.get_json()` parses from the body. -/
structure HttpRequest where
  url : String
  body : Bytes
  json : List Record
deriving DecidableEq, Repr

/-- The key set every submitted record must carry exactly
(function_app.py line 50). -/
def expected_keys : Finset String := {"comment_id", "comment_text", "question_type"}

/-- Validation of one record: `set(i.keys()) == expected_keys`
(function_app.py line 52). -/
def valid_record (r : Record) : Bool := decide (r.keys.toFinset = expected_keys)

/-- Helper `_upload_comments` (function_app.py lines 119-133): writes the raw
comment bytes to `data_in/{run_id}.json` in the "comments" share. -/
def upload_comments (comments : Bytes) (run_id : String) (w : World) : World :=
  { w with data_in := upsert w.data_in (run_id ++ ".json") comments }

/-- The execution state the platform reports for a freshly created, not yet
terminated container group.  The source never sets this value; any state
other than "Terminated" behaves identically in the resolver. -/
def createdState : CurrentState := ⟨"Waiting", ""⟩

/-- Helper `_create_and_start_container` (function_app.py lines 136-187):
requests creation of container group `aci-px-{run_id}` running the image's
`docker_run.py {run_id}.json` command. -/
def create_and_start_container (run_id : String) (w : World) : World :=
  { w with containerGroups := upsert w.containerGroups ("aci-px-" ++ run_id) createdState }

/-- Helper `_get_completed_file` (function_app.py lines 190-207): downloads
`data_out/{run_id}.json`, deletes it, and returns the downloaded bytes;
`none` models the exception `download_file` raises when the file is absent. -/
def get_completed_file (run_id : String) (w : World) : Option (Bytes × World) :=
  match lookupKey w.data_out (run_id ++ ".json") with
  | none => none
  | some b => some (b, { w with data_out := eraseKey w.data_out (run_id ++ ".json") })

/-- Helper `_check_for_file` (function_app.py lines 210-225): lists the
`data_in` directory, strips the last five characters (".json") from each
name, and tests membership of `run_id`. -/
def check_for_file (run_id : String) (w : World) : Bool :=
  (w.data_in.map (fun f => f.1.dropRight 5)).contains run_id

/-- Route handler `start_container_instance` (function_app.py lines 28-59):
validates every record's key set, uploads the raw request body, requests
sandbox creation, and answers 202 with the poll URL derived from the request
URL.  A failing record makes the assertion raise before any side effect
(`none`, world unchanged, empty trace). -/
def start_container_instance (run_id : String) (req : HttpRequest) (w : World) :
    Option HttpResponse × World × List Effect :=
  if req.json.all valid_record then
    let w1 := upload_comments req.body run_id w
    let w2 := create_and_start_container run_id w1
    let results_url := req.url.replace "StartContainerInstance" ("GetResults/" ++ run_id)
    (some ⟨Sum.inl results_url, 202⟩, w2,
      [Effect.storeUpload ("data_in/" ++ run_id ++ ".json") req.body,
       Effect.sandboxCreate ("aci-px-" ++ run_id)])
  else
    (none, w, [])

/-- Route handler `get_results` (function_app.py lines 62-115): resolves the
lifecycle decision for `run_id` from one snapshot of the external state.
`req_url` is `req.url`, the poll URL echoed in 202 responses. -/
def get_results (req_url : String) (run_id : String) (w : World) :
    Option HttpResponse × World × List Effect :=
  let container_id := "aci-px-" ++ run_id
  match lookupKey w.containerGroups container_id with
  | none =>
    if !check_for_file run_id w then
      (some ⟨Sum.inl "File already collected", 404⟩, w, [])
    else
      (some ⟨Sum.inl req_url, 202⟩, w, [])
  | some container =>
    if container.state ≠ "Terminated" then
      (some ⟨Sum.inl req_url, 202⟩, w, [])
    else if container.detail_status = "Completed" then
      match get_completed_file run_id w with
      | none => (none, w, [Effect.sandboxBeginDelete container_id])
      | some (b, w') =>
        (some ⟨Sum.inr b, 200⟩, w',
          [Effect.sandboxBeginDelete container_id,
           Effect.storeDownload ("data_out/" ++ run_id ++ ".json"),
           Effect.storeDelete ("data_out/" ++ run_id ++ ".json")])
    else
      (some ⟨Sum.inl "Error during processing", 500⟩, w, [])

/-- Eventual effect of the fire-and-forget `begin_delete` request issued on
successful collection: the container group disappears from the Sandbox
Runner. -/
def sandbox_delete_completes (run_id : String) (w : World) : World :=
  { w with containerGroups := eraseKey w.containerGroups ("aci-px-" ++ run_id) }

/-- Modelled from the spec: the sandbox runs `python3 docker_run.py
{run_id}.json`, code that is not under src/.  Per the spec's data model
invariant ("exactly one of {input artifact present, output artifact present,
neither}", with input present only transiently while the sandbox runs, and
the submission handler note that the sandbox "is responsible for locating its
input and writing its output"), a successful run writes the output artifact
to the results namespace, removes the input artifact from the pending
namespace, and the platform then reports the container Terminated with
detail outcome "Completed". -/
def sandbox_produce_output (run_id : String) (output : Bytes) (w : World) : World :=
  { containerGroups := upsert w.containerGroups ("aci-px-" ++ run_id) ⟨"Terminated", "Completed"⟩,
    data_in := eraseKey w.data_in (run_id ++ ".json"),
    data_out := upsert w.data_out (run_id ++ ".json") output }

/- Helper lemmas shared by the claim theorems. -/

/-- Looking up a key right after storing a value at it returns that value. -/
theorem lookupKey_upsert_self {α : Type} (l : List (String × α)) (k : String) (v : α) :
    lookupKey (upsert l k v) k = some v := by
  induction l with
  | nil => simp [upsert, lookupKey]
  | cons h t ih =>
    by_cases hk : h.1 = k
    · simp [upsert, hk, lookupKey]
    · simp [upsert, hk, lookupKey, ih]

/-- C1: when the Sandbox Runner reports the job's container group not found,
the resolver consults only the pending-input directory: input artifact
present gives the Pending decision (202 with the poll URL), input artifact
absent gives the AlreadyCollected decision (404 with the fixed message
"File already collected"); in both cases the external state is unchanged and
no mutating request is issued, and no other outcome exists in this branch. -/
theorem c1_not_found_branch (u r : String) (w : World)
    (h : lookupKey w.containerGroups ("aci-px-" ++ r) = none) :
    get_results u r w =
      (if check_for_file r w then (some ⟨Sum.inl u, 202⟩, w, ([] : List Effect))
       else (some ⟨Sum.inl "File already collected", 404⟩, w, [])) := by
  unfold get_results
  dsimp only
  rw [h]
  by_cases hc : check_for_file r w <;> simp [hc]

/-- Witness for C1 at a concrete state with the sandbox absent. -/
theorem c1_not_found_branch_witness :
    lookupKey (World.mk [] [("j1.json", [1, 2])] []).containerGroups ("aci-px-" ++ "j1") = none ∧
    get_results "u" "j1" ⟨[], [("j1.json", [1, 2])], []⟩ =
      (if check_for_file "j1" ⟨[], [("j1.json", [1, 2])], []⟩
       then (some ⟨Sum.inl "u", 202⟩, ⟨[], [("j1.json", [1, 2])], []⟩, ([] : List Effect))
       else (some ⟨Sum.inl "File already collected", 404⟩, ⟨[], [("j1.json", [1, 2])], []⟩, [])) :=
  ⟨by decide, c1_not_found_branch "u" "j1" ⟨[], [("j1.json", [1, 2])], []⟩ (by decide)⟩

/-- C2: when the sandbox is found terminated with detail outcome "Completed"
and the output artifact exists, the resolver issues, in order, the
fire-and-forget sandbox deletion (which is not awaited: the container group
is still present in the returned state), the download of the output
artifact, and the deletion of the output artifact, and answers 200 with
exactly the bytes the output artifact held before that deletion. -/
theorem c2_completed_branch (u r : String) (w : World) (st : CurrentState) (o : Bytes)
    (hfound : lookupKey w.containerGroups ("aci-px-" ++ r) = some st)
    (hterm : st.state = "Terminated")
    (hdone : st.detail_status = "Completed")
    (hout : lookupKey w.data_out (r ++ ".json") = some o) :
    get_results u r w =
      (some ⟨Sum.inr o, 200⟩,
       { w with data_out := eraseKey w.data_out (r ++ ".json") },
       [Effect.sandboxBeginDelete ("aci-px-" ++ r),
        Effect.storeDownload ("data_out/" ++ r ++ ".json"),
        Effect.storeDelete ("data_out/" ++ r ++ ".json")]) := by
  unfold get_results
  dsimp only
  rw [hfound]
  simp [hterm, hdone, get_completed_file, hout]

/-- Witness for C2 at a concrete completed job. -/
theorem c2_completed_branch_witness :
    get_results "u" "j2"
        ⟨[("aci-px-j2", ⟨"Terminated", "Completed"⟩)], [("j2.json", [5])], [("j2.json", [9, 9])]⟩ =
      (some ⟨Sum.inr [9, 9], 200⟩,
       { World.mk [("aci-px-j2", ⟨"Terminated", "Completed"⟩)] [("j2.json", [5])]
           [("j2.json", [9, 9])] with
           data_out :=
             eraseKey (World.mk [("aci-px-j2", ⟨"Terminated", "Completed"⟩)] [("j2.json", [5])]
               [("j2.json", [9, 9])]).data_out ("j2" ++ ".json") },
       [Effect.sandboxBeginDelete ("aci-px-" ++ "j2"),
        Effect.storeDownload ("data_out/" ++ "j2" ++ ".json"),
        Effect.storeDelete ("data_out/" ++ "j2" ++ ".json")]) :=
  c2_completed_branch "u" "j2"
    ⟨[("aci-px-j2", ⟨"Terminated", "Completed"⟩)], [("j2.json", [5])], [("j2.json", [9, 9])]⟩
    ⟨"Terminated", "Completed"⟩ [9, 9] (by decide) rfl rfl (by decide)

/-- C3: round-trip from the empty external state: submitting a valid batch
for job `r`, then letting the sandbox produce output `o` (behaviour of
docker_run.py, modelled from the spec), polling returns 200 with exactly
`o` as the body, and — once the fire-and-forget sandbox deletion issued by
that poll completes — a subsequent poll returns 404. -/
theorem c3_round_trip (u r : String) (req : HttpRequest) (o : Bytes)
    (hvalid : req.json.all valid_record = true) :
    ((get_results u r (sandbox_produce_output r o
        ((start_container_instance r req ⟨[], [], []⟩).2.1))).1 =
      some ⟨Sum.inr o, 200⟩) ∧
    ((get_results u r (sandbox_delete_completes r
        ((get_results u r (sandbox_produce_output r o
          ((start_container_instance r req ⟨[], [], []⟩).2.1))).2.1))).1 =
      some ⟨Sum.inl "File already collected", 404⟩) := by
  simp [start_container_instance, hvalid, upload_comments, create_and_start_container,
    sandbox_produce_output, sandbox_delete_completes, get_results, get_completed_file,
    check_for_file, upsert, eraseKey, lookupKey, createdState]

/-- Witness for C3 with a concrete one-record batch and output bytes. -/
theorem c3_round_trip_witness :
    ((get_results "u" "j3" (sandbox_produce_output "j3" [4, 2]
        ((start_container_instance "j3"
          ⟨"https://h/api/StartContainerInstance", [91, 93],
           [⟨["comment_id", "comment_text", "question_type"]⟩]⟩ ⟨[], [], []⟩).2.1))).1 =
      some ⟨Sum.inr [4, 2], 200⟩) ∧
    ((get_results "u" "j3" (sandbox_delete_completes "j3"
        ((get_results "u" "j3" (sandbox_produce_output "j3" [4, 2]
          ((start_container_instance "j3"
            ⟨"https://h/api/StartContainerInstance", [91, 93],
             [⟨["comment_id", "comment_text", "question_type"]⟩]⟩ ⟨[], [], []⟩).2.1))).2.1))).1 =
      some ⟨Sum.inl "File already collected", 404⟩) :=
  c3_round_trip "u" "j3"
    ⟨"https://h/api/StartContainerInstance", [91, 93],
     [⟨["comment_id", "comment_text", "question_type"]⟩]⟩ [4, 2] (by decide)

/-- C4: when the sandbox is found terminated with any detail outcome other
than "Completed", the resolver answers 500 with the fixed message "Error
during processing", the external state is returned unchanged, no mutating
request is issued, and the sandbox is still found by a later query. -/
theorem c4_failed_branch (u r : String) (w : World) (st : CurrentState)
    (hfound : lookupKey w.containerGroups ("aci-px-" ++ r) = some st)
    (hterm : st.state = "Terminated")
    (hfail : st.detail_status ≠ "Completed") :
    get_results u r w = (some ⟨Sum.inl "Error during processing", 500⟩, w, []) ∧
    lookupKey ((get_results u r w).2.1).containerGroups ("aci-px-" ++ r) = some st := by
  have h1 : get_results u r w = (some ⟨Sum.inl "Error during processing", 500⟩, w, []) := by
    unfold get_results
    dsimp only
    rw [hfound]
    simp [hterm, hfail]
  exact ⟨h1, by rw [h1]; exact hfound⟩

/-- Witness for C4 at a concrete failed job. -/
theorem c4_failed_branch_witness :
    get_results "u" "j4" ⟨[("aci-px-j4", ⟨"Terminated", "Failed"⟩)], [("j4.json", [5])], []⟩ =
      (some ⟨Sum.inl "Error during processing", 500⟩,
       ⟨[("aci-px-j4", ⟨"Terminated", "Failed"⟩)], [("j4.json", [5])], []⟩, []) ∧
    lookupKey ((get_results "u" "j4"
        ⟨[("aci-px-j4", ⟨"Terminated", "Failed"⟩)], [("j4.json", [5])], []⟩).2.1).containerGroups
      ("aci-px-" ++ "j4") = some ⟨"Terminated", "Failed"⟩ :=
  c4_failed_branch "u" "j4" ⟨[("aci-px-j4", ⟨"Terminated", "Failed"⟩)], [("j4.json", [5])], []⟩
    ⟨"Terminated", "Failed"⟩ (by decide) rfl (by decide)

/-- C5: a batch containing any record whose key set is not exactly
{comment_id, comment_text, question_type} is rejected before any side
effect: no response is produced (the assertion raises), the external state
is unchanged (no artifact written, no sandbox requested), and no mutating
request is issued. -/
theorem c5_invalid_batch_rejected (r : String) (req : HttpRequest) (w : World) (rec : Record)
    (hmem : rec ∈ req.json) (hbad : rec.keys.toFinset ≠ expected_keys) :
    start_container_instance r req w = (none, w, []) := by
  have hall : req.json.all valid_record = false := by
    cases hq : req.json.all valid_record with
    | false => rfl
    | true =>
      rw [List.all_eq_true] at hq
      have := hq rec hmem
      simp [valid_record, hbad] at this
  simp [start_container_instance, hall]

/-- Witness for C5: a two-record batch whose second record lacks keys. -/
theorem c5_invalid_batch_rejected_witness :
    start_container_instance "j5"
        ⟨"https://h/api/StartContainerInstance", [123],
         [⟨["comment_id", "comment_text", "question_type"]⟩, ⟨["comment_id"]⟩]⟩
        ⟨[], [("other.json", [0])], []⟩ =
      (none, ⟨[], [("other.json", [0])], []⟩, []) :=
  c5_invalid_batch_rejected "j5"
    ⟨"https://h/api/StartContainerInstance", [123],
     [⟨["comment_id", "comment_text", "question_type"]⟩, ⟨["comment_id"]⟩]⟩
    ⟨[], [("other.json", [0])], []⟩ ⟨["comment_id"]⟩ (by decide) (by decide)

/-- C6: no operation of the program deletes anything from the pending-input
directory: every branch of the resolver returns `data_in` unchanged (the
successful-collection branch deletes only the output artifact), and the
submission handler at most adds or overwrites the job's own input file. -/
theorem c6_input_artifact_never_deleted :
    (∀ u r w, ((get_results u r w).2.1).data_in = w.data_in) ∧
    (∀ r req w, ((start_container_instance r req w).2.1).data_in =
       if req.json.all valid_record then upsert w.data_in (r ++ ".json") req.body
       else w.data_in) := by
  constructor
  · intro u r w
    unfold get_results
    dsimp only
    cases hq : lookupKey w.containerGroups ("aci-px-" ++ r) with
    | none => by_cases hc : check_for_file r w <;> simp [hc]
    | some st =>
      by_cases h1 : st.state ≠ "Terminated"
      · simp [h1]
      · by_cases h2 : st.detail_status = "Completed"
        · simp only [h1, h2, if_true, if_false, get_completed_file]
          cases ho : lookupKey w.data_out (r ++ ".json") <;> simp
        · simp [h1, h2]
  · intro r req w
    unfold start_container_instance
    by_cases hv : req.json.all valid_record <;>
      simp [hv, upload_comments, create_and_start_container]

/-- C7: for a valid submission, the bytes stored at the job's pending-input
key are exactly the raw request body, and the whole outcome of submission is
unchanged by replacing the parsed batch with any other valid parse — the
stored artifact never depends on the parser's output. -/
theorem c7_body_bytes_verbatim (r : String) (req : HttpRequest) (w : World)
    (hvalid : req.json.all valid_record = true) :
    lookupKey ((start_container_instance r req w).2.1).data_in (r ++ ".json") = some req.body ∧
    ∀ js, js.all valid_record = true →
      start_container_instance r { req with json := js } w = start_container_instance r req w := by
  constructor
  · simp [start_container_instance, hvalid, upload_comments, create_and_start_container,
      lookupKey_upsert_self]
  · intro js hjs
    simp [start_container_instance, hvalid, hjs]

/-- Witness for C7: the body bytes of "[{}]" are stored verbatim, and
reordering the record's keys in the parse leaves the outcome unchanged. -/
theorem c7_body_bytes_verbatim_witness :
    lookupKey ((start_container_instance "j7"
        ⟨"https://h/api/StartContainerInstance", [91, 123, 125, 93],
         [⟨["comment_id", "comment_text", "question_type"]⟩]⟩
        ⟨[], [], []⟩).2.1).data_in ("j7" ++ ".json") = some [91, 123, 125, 93] ∧
    start_container_instance "j7"
        ⟨"https://h/api/StartContainerInstance", [91, 123, 125, 93],
         [⟨["question_type", "comment_text", "comment_id"]⟩]⟩ ⟨[], [], []⟩ =
      start_container_instance "j7"
        ⟨"https://h/api/StartContainerInstance", [91, 123, 125, 93],
         [⟨["comment_id", "comment_text", "question_type"]⟩]⟩ ⟨[], [], []⟩ :=
  ⟨(c7_body_bytes_verbatim "j7"
      ⟨"https://h/api/StartContainerInstance", [91, 123, 125, 93],
       [⟨["comment_id", "comment_text", "question_type"]⟩]⟩ ⟨[], [], []⟩ (by decide)).1,
   (c7_body_bytes_verbatim "j7"
      ⟨"https://h/api/StartContainerInstance", [91, 123, 125, 93],
       [⟨["comment_id", "comment_text", "question_type"]⟩]⟩ ⟨[], [], []⟩ (by decide)).2
     [⟨["question_type", "comment_text", "comment_id"]⟩] (by decide)⟩

/-- C8: in either Pending situation — sandbox absent with the input artifact
present, or sandbox present and not terminated — the resolver answers 202
with the poll URL, changes no external state, issues no mutating request,
and polling again from the returned state yields the identical outcome. -/
theorem c8_pending_idempotent (u r : String) (w : World)
    (hp : (lookupKey w.containerGroups ("aci-px-" ++ r) = none ∧ check_for_file r w = true) ∨
          (∃ st, lookupKey w.containerGroups ("aci-px-" ++ r) = some st ∧
            st.state ≠ "Terminated")) :
    get_results u r w = (some ⟨Sum.inl u, 202⟩, w, []) ∧
    get_results u r ((get_results u r w).2.1) = get_results u r w := by
  have h1 : get_results u r w = (some ⟨Sum.inl u, 202⟩, w, []) := by
    rcases hp with ⟨hn, hc⟩ | ⟨st, hs, hterm⟩
    · unfold get_results; dsimp only; rw [hn]; simp [hc]
    · unfold get_results; dsimp only; rw [hs]; simp [hterm]
  exact ⟨h1, by rw [h1]; exact h1⟩

/-- Witness for C8 at a concrete still-running job. -/
theorem c8_pending_idempotent_witness :
    get_results "u" "j8" ⟨[("aci-px-j8", ⟨"Running", ""⟩)], [], []⟩ =
      (some ⟨Sum.inl "u", 202⟩, ⟨[("aci-px-j8", ⟨"Running", ""⟩)], [], []⟩, []) ∧
    get_results "u" "j8" ((get_results "u" "j8" ⟨[("aci-px-j8", ⟨"Running", ""⟩)], [], []⟩).2.1) =
      get_results "u" "j8" ⟨[("aci-px-j8", ⟨"Running", ""⟩)], [], []⟩ :=
  c8_pending_idempotent "u" "j8" ⟨[("aci-px-j8", ⟨"Running", ""⟩)], [], []⟩
    (Or.inr ⟨⟨"Running", ""⟩, by decide, by decide⟩)

/-- C9: a valid submission answers 202 Accepted with, as body, the request
URL in which the substring "StartContainerInstance" is replaced by
"GetResults/" followed by the generated job identifier. -/
theorem c9_poll_url (r : String) (req : HttpRequest) (w : World)
    (hvalid : req.json.all valid_record = true) :
    (start_container_instance r req w).1 =
      some ⟨Sum.inl (req.url.replace "StartContainerInstance" ("GetResults/" ++ r)), 202⟩ := by
  simp [start_container_instance, hvalid]

/-- Witness for C9 at a concrete request URL carrying a query string. -/
theorem c9_poll_url_witness :
    (start_container_instance "j9"
        ⟨"https://h/api/StartContainerInstance?code=k", [91, 93],
         [⟨["comment_id", "comment_text", "question_type"]⟩]⟩ ⟨[], [], []⟩).1 =
      some ⟨Sum.inl ("https://h/api/StartContainerInstance?code=k".replace
        "StartContainerInstance" ("GetResults/" ++ "j9")), 202⟩ :=
  c9_poll_url "j9"
    ⟨"https://h/api/StartContainerInstance?code=k", [91, 93],
     [⟨["comment_id", "comment_text", "question_type"]⟩]⟩ ⟨[], [], []⟩ (by decide)

/-- C10: the empty batch passes validation vacuously, so submission runs
with full side effects: the (empty-array) body is uploaded to the
pending-input directory, sandbox creation is requested, and the answer is
202 with the poll URL. -/
theorem c10_empty_batch (r : String) (req : HttpRequest) (w : World)
    (hempty : req.json = []) :
    start_container_instance r req w =
      (some ⟨Sum.inl (req.url.replace "StartContainerInstance" ("GetResults/" ++ r)), 202⟩,
       create_and_start_container r (upload_comments req.body r w),
       [Effect.storeUpload ("data_in/" ++ r ++ ".json") req.body,
        Effect.sandboxCreate ("aci-px-" ++ r)]) := by
  simp [start_container_instance, hempty, List.all_nil]

/-- Witness for C10: submitting the bytes of "[]" with an empty parse. -/
theorem c10_empty_batch_witness :
    start_container_instance "j10" ⟨"https://h/api/StartContainerInstance", [91, 93], []⟩
        ⟨[], [], []⟩ =
      (some ⟨Sum.inl ("https://h/api/StartContainerInstance".replace "StartContainerInstance"
          ("GetResults/" ++ "j10")), 202⟩,
       create_and_start_container "j10" (upload_comments [91, 93] "j10" ⟨[], [], []⟩),
       [Effect.storeUpload ("data_in/" ++ "j10" ++ ".json") [91, 93],
        Effect.sandboxCreate ("aci-px-" ++ "j10")]) :=
  c10_empty_batch "j10" ⟨"https://h/api/StartContainerInstance", [91, 93], []⟩ ⟨[], [], []⟩ rfl

end PxApi
